import Mathlib

/-!
Verification development for a fixed-income valuation library
(discount-curve bootstrap, bond pricing, par-par asset swaps,
interest-rate swaps and cross-currency swaps).

Dates are abstract day indices (`Nat`); market amounts, prices, rates and
discount factors are exact rationals (`ℚ`).  External collaborators
(calendar `advance`, schedule generation, day-count `yearFraction`) are
passed in as function arguments, mirroring the fact that the library calls
out to them; the arithmetic performed by the library itself is translated
verbatim.
-/

abbrev Date := Nat

/-- Adjacent pairs `(schedule[i-1], schedule[i])` of a schedule, the periods
the source iterates over with `for i in range(1, len(schedule))`. -/
def schedulePairs : List Date → List (Date × Date)
  | s :: e :: rest => (s, e) :: schedulePairs (e :: rest)
  | _ => []

/-- Discounted total of a list of `(date, amount)` cashflows
(`_pv_cashflows` without the per-row breakdown). -/
def pvTotal (curve : Date → ℚ) (cfs : List (Date × ℚ)) : ℚ :=
  (cfs.map (fun c => c.2 * curve c.1)).sum

/-! ## asset_swap.py : data model -/

/-- The queries the asset-swap code makes of a `ql.FixedRateBond`:
settlement date, maturity date, notional, accrued amount at settlement,
and the list of remaining `(date, amount)` cashflows. -/
structure FixedRateBond where
  settlementDate : Date
  maturityDate : Date
  notional : ℚ
  accruedAmount : ℚ
  cashflows : List (Date × ℚ)

/-- One row in the cashflow-by-cashflow breakdown. -/
structure CashflowDetail where
  date : Date
  amount : ℚ
  discount_factor : ℚ
  present_value : ℚ
deriving DecidableEq

/-- One row in the floating-annuity breakdown. -/
structure FloatingPeriodDetail where
  start : Date
  stop : Date
  year_fraction : ℚ
  discount_factor : ℚ
  contribution : ℚ
deriving DecidableEq

/-- Container for the manual (replicated) asset swap results. -/
structure ReplicatedAssetSwapResults where
  asset_swap_spread : ℚ
  fair_spread : ℚ
  bond_pv_at_swap_curve : ℚ
  market_dirty_price : ℚ
  floating_annuity : ℚ
  bond_cashflows : List CashflowDetail
  floating_periods : List FloatingPeriodDetail
deriving DecidableEq

/-- Container for par-par asset swap results (structural derivation). -/
structure AssetSwapResults where
  asset_swap_spread : ℚ
  fair_spread : ℚ
  bond_clean_price : ℚ
  bond_dirty_price : ℚ
  npv : ℚ
  fixed_leg_npv : ℚ
  floating_leg_npv : ℚ
deriving DecidableEq

/-! ## asset_swap.py : replicate_par_par_asset_swap -/

/-- Step 1 accumulation of `replicate_par_par_asset_swap`: PV at the
evaluation date of the bond cashflows strictly after settlement
(`if cf.date() <= settlement: continue` / `bond_pv_eval += cf.amount() * df`). -/
def bondPvEval (curve : Date → ℚ) (settlement : Date) : List (Date × ℚ) → ℚ
  | [] => 0
  | cf :: rest =>
      (if cf.1 ≤ settlement then 0 else cf.2 * curve cf.1) +
        bondPvEval curve settlement rest

/-- The `CashflowDetail` rows accumulated alongside `bondPvEval`. -/
def bondCfRows (curve : Date → ℚ) (settlement : Date) :
    List (Date × ℚ) → List CashflowDetail
  | [] => []
  | cf :: rest =>
      (if cf.1 ≤ settlement then [] else
        [⟨cf.1, cf.2, curve cf.1, cf.2 * curve cf.1⟩]) ++
        bondCfRows curve settlement rest

/-- Step 2 accumulation of `replicate_par_par_asset_swap`: the per-unit
floating annuity `annuity += tau * (DF(end)/DF(settle))` over consecutive
schedule periods. -/
def floatingAnnuity (curve : Date → ℚ) (dc : Date → Date → ℚ)
    (df_settle : ℚ) : List Date → ℚ
  | s :: e :: rest =>
      dc s e * (curve e / df_settle) + floatingAnnuity curve dc df_settle (e :: rest)
  | _ => 0

/-- The `FloatingPeriodDetail` rows accumulated alongside `floatingAnnuity`. -/
def floatRows (curve : Date → ℚ) (dc : Date → Date → ℚ)
    (df_settle : ℚ) : List Date → List FloatingPeriodDetail
  | s :: e :: rest =>
      ⟨s, e, dc s e, curve e / df_settle, dc s e * (curve e / df_settle)⟩ ::
        floatRows curve dc df_settle (e :: rest)
  | _ => []

/-- `replicate_par_par_asset_swap` from `asset_swap.py`.  The 6-month
floating schedule (built externally by `ql.Schedule(settlement, maturity,
6M, TARGET, MF, MF, Backward, False)`) and the floating index's day counter
are passed in as `float_schedule` and `float_dc`. -/
def replicate_par_par_asset_swap (bond : FixedRateBond) (bond_dirty_price : ℚ)
    (discount_curve : Date → ℚ) (float_schedule : List Date)
    (float_dc : Date → Date → ℚ) : ReplicatedAssetSwapResults :=
  let settlement := bond.settlementDate
  let face := bond.notional
  let df_settle := discount_curve settlement
  let bond_pv_eval := bondPvEval discount_curve settlement bond.cashflows
  let bond_pv_settle := bond_pv_eval / df_settle
  let annuity := floatingAnnuity discount_curve float_dc df_settle float_schedule
  let spread := (bond_pv_settle - bond_dirty_price) / (face * annuity)
  { asset_swap_spread := spread * 10000
    fair_spread := spread
    bond_pv_at_swap_curve := bond_pv_settle
    market_dirty_price := bond_dirty_price
    floating_annuity := annuity
    bond_cashflows := bondCfRows discount_curve settlement bond.cashflows
    floating_periods := floatRows discount_curve float_dc df_settle float_schedule }

/-! ## Sum-form lemmas for the replication accumulations -/

theorem bondPvEval_eq_sum (curve : Date → ℚ) (settlement : Date)
    (cfs : List (Date × ℚ)) :
    bondPvEval curve settlement cfs =
      ((cfs.filter (fun c => settlement < c.1)).map
        (fun c => c.2 * curve c.1)).sum := by
  induction cfs with
  | nil => simp [bondPvEval]
  | cons cf rest ih =>
      by_cases h : cf.1 ≤ settlement
      · have h2 : ¬ settlement < cf.1 := not_lt.mpr h
        simp [bondPvEval, List.filter, h, h2, ih]
      · have h2 : settlement < cf.1 := not_le.mp h
        simp [bondPvEval, List.filter, h, h2, ih]

theorem floatingAnnuity_eq_sum (curve : Date → ℚ) (dc : Date → Date → ℚ)
    (df_settle : ℚ) (sched : List Date) :
    floatingAnnuity curve dc df_settle sched =
      ((schedulePairs sched).map
        (fun p => dc p.1 p.2 * (curve p.2 / df_settle))).sum := by
  induction sched with
  | nil => simp [floatingAnnuity, schedulePairs]
  | cons s rest ih =>
      cases rest with
      | nil => simp [floatingAnnuity, schedulePairs]
      | cons e rest' =>
          simp only [floatingAnnuity, schedulePairs, List.map_cons, List.sum_cons]
          rw [ih]

/-- C2: the fair spread returned by `replicate_par_par_asset_swap` equals
(PV of the remaining bond cashflows at settlement − market dirty price)
divided by (face × floating annuity), with the annuity summed as
yearFraction(startᵢ,endᵢ) · DF(endᵢ)/DF(settlement) over the schedule. -/
theorem C2_replicated_spread_formula (bond : FixedRateBond) (dirty : ℚ)
    (curve : Date → ℚ) (sched : List Date) (dc : Date → Date → ℚ) :
    (replicate_par_par_asset_swap bond dirty curve sched dc).fair_spread =
      (((bond.cashflows.filter (fun c => bond.settlementDate < c.1)).map
          (fun c => c.2 * curve c.1)).sum / curve bond.settlementDate - dirty) /
        (bond.notional *
          ((schedulePairs sched).map
            (fun p => dc p.1 p.2 * (curve p.2 / curve bond.settlementDate))).sum) := by
  simp only [replicate_par_par_asset_swap, bondPvEval_eq_sum, floatingAnnuity_eq_sum]

/-! ## asset_swap.py : price_par_par_asset_swap (structural derivation) -/

/-- Last date of a nonempty schedule `d :: rest`. -/
def lastOf (d : Date) : List Date → Date
  | [] => d
  | e :: rest => lastOf e rest

/-- Modelled from the spec: the single-curve value, expressed at settlement,
of the structural floating leg with the spread stripped out — the projected
index coupons (forward · τ per period, which telescopes to
DF(start) − DF(end)) plus the par redemption at the schedule's last date.
This is the part of QuantLib's `AssetSwap` floating-leg valuation that does
not depend on the spread; it is not in src. -/
def flatFrnPV (curve : Date → ℚ) (df_settle face : ℚ) : List Date → ℚ
  | [] => 0
  | d :: rest =>
      ((schedulePairs (d :: rest)).map
        (fun p => face * ((curve p.1 - curve p.2) / df_settle))).sum +
        face * curve (lastOf d rest) / df_settle

theorem flatFrnPV_telescope (curve : Date → ℚ) (df_settle face : ℚ)
    (hdf : df_settle ≠ 0) (d : Date) (rest : List Date) :
    flatFrnPV curve df_settle face (d :: rest) = face * curve d / df_settle := by
  induction rest generalizing d with
  | nil => simp [flatFrnPV, schedulePairs, lastOf]
  | cons e rest' ih =>
      have ihe := ih e
      simp only [flatFrnPV, schedulePairs, List.map_cons, List.sum_cons, lastOf] at ihe ⊢
      field_simp at ihe ⊢
      linarith [ihe]

/-- Modelled from the spec: NPV at spread `s`, from the investor's side and
expressed at settlement, of the structural par-par asset swap that
QuantLib's `AssetSwap` + `DiscountingSwapEngine` value (not in src).
Per §4.5(a) and the replication docstring: the investor receives the
par-minus-dirty upfront (scaled to the face) and the bond's remaining
cashflows, and pays projected index + `s` on par notional over the bond's
remaining-life schedule together with the par redemption. -/
def structuralNPV (bond : FixedRateBond) (dirty : ℚ) (curve : Date → ℚ)
    (sched : List Date) (dc : Date → Date → ℚ) (s : ℚ) : ℚ :=
  let face := bond.notional
  let df_settle := curve bond.settlementDate
  (face * (100 - dirty) / 100 +
      bondPvEval curve bond.settlementDate bond.cashflows / df_settle) -
    (flatFrnPV curve df_settle face sched +
      s * face * floatingAnnuity curve dc df_settle sched)

/-- Modelled from the spec: the spread `s` at which `structuralNPV`
vanishes — the quantity `ql.AssetSwap.fairSpread()` solves for. -/
def structuralFairSpread (bond : FixedRateBond) (dirty : ℚ) (curve : Date → ℚ)
    (sched : List Date) (dc : Date → Date → ℚ) : ℚ :=
  let face := bond.notional
  let df_settle := curve bond.settlementDate
  (face * (100 - dirty) / 100 +
      bondPvEval curve bond.settlementDate bond.cashflows / df_settle -
      flatFrnPV curve df_settle face sched) /
    (face * floatingAnnuity curve dc df_settle sched)

/-- `price_par_par_asset_swap` from `asset_swap.py`: the numeric results it
extracts from QuantLib's `AssetSwap` (clean price conversion is the
function's own arithmetic; spread and leg values are the structural model's). -/
def price_par_par_asset_swap (bond : FixedRateBond) (bond_dirty_price : ℚ)
    (discount_curve : Date → ℚ) (sched : List Date) (dc : Date → Date → ℚ) :
    AssetSwapResults :=
  let s := structuralFairSpread bond bond_dirty_price discount_curve sched dc
  let face := bond.notional
  let df_settle := discount_curve bond.settlementDate
  { asset_swap_spread := s * 10000
    fair_spread := s
    bond_clean_price := bond_dirty_price - bond.accruedAmount
    bond_dirty_price := bond_dirty_price
    npv := structuralNPV bond bond_dirty_price discount_curve sched dc 0
    fixed_leg_npv := face * (100 - bond_dirty_price) / 100 +
      bondPvEval discount_curve bond.settlementDate bond.cashflows / df_settle
    floating_leg_npv := -flatFrnPV discount_curve df_settle face sched }

/-- Sanity: the structural fair spread does zero the structural NPV. -/
theorem structuralNPV_at_fair (bond : FixedRateBond) (dirty : ℚ)
    (curve : Date → ℚ) (sched : List Date) (dc : Date → Date → ℚ)
    (hann : bond.notional * floatingAnnuity curve dc
      (curve bond.settlementDate) sched ≠ 0) :
    structuralNPV bond dirty curve sched dc
      (structuralFairSpread bond dirty curve sched dc) = 0 := by
  simp only [structuralNPV, structuralFairSpread]
  field_simp
  ring

/-- C1: for a face-100 bond, a market dirty price and a discount curve, the
asset-swap spread from the structural derivation
(`price_par_par_asset_swap`) and from the first-principles replication
(`replicate_par_par_asset_swap`) agree to within 1e-8 in decimal spread
units (they are equal), provided the floating schedule starts at the bond's
settlement date and the settlement discount factor is nonzero. -/
theorem C1_structural_matches_replication (bond : FixedRateBond) (dirty : ℚ)
    (curve : Date → ℚ) (sched : List Date) (dc : Date → Date → ℚ)
    (hface : bond.notional = 100)
    (hhead : sched.head? = some bond.settlementDate)
    (hdf : curve bond.settlementDate ≠ 0) :
    |(price_par_par_asset_swap bond dirty curve sched dc).fair_spread -
        (replicate_par_par_asset_swap bond dirty curve sched dc).fair_spread| ≤
      1 / 100000000 := by
  obtain ⟨rest, rfl⟩ : ∃ rest, sched = bond.settlementDate :: rest := by
    cases sched with
    | nil => simp at hhead
    | cons a t =>
        simp only [List.head?_cons, Option.some.injEq] at hhead
        exact ⟨t, by rw [hhead]⟩
  simp only [price_par_par_asset_swap, replicate_par_par_asset_swap,
    structuralFairSpread]
  rw [flatFrnPV_telescope curve _ _ hdf, hface]
  have h1 : (100 : ℚ) * curve bond.settlementDate / curve bond.settlementDate =
      100 := by
    rw [mul_div_assoc, div_self hdf, mul_one]
  rw [h1]
  have h2 : (100 : ℚ) * (100 - dirty) / 100 +
      bondPvEval curve bond.settlementDate bond.cashflows /
        curve bond.settlementDate - 100 =
      bondPvEval curve bond.settlementDate bond.cashflows /
        curve bond.settlementDate - dirty := by ring
  rw [h2, sub_self, abs_zero]
  norm_num

/-- Witness bond for concrete evaluations: face-100 two-period bond. -/
def sampleBond : FixedRateBond :=
  { settlementDate := 0, maturityDate := 2, notional := 100,
    accruedAmount := 0, cashflows := [(1, 3), (2, 103)] }

/-- Witness discount curve `1/(1+d)`. -/
def sampleCurve : Date → ℚ := fun d => 1 / (1 + (d : ℚ))

/-- Witness floating schedule from settlement to maturity. -/
def sampleSched : List Date := [0, 1, 2]

/-- Witness day counter: elapsed days as a year fraction with a 1-day year. -/
def sampleDc : Date → Date → ℚ := fun s e => (e : ℚ) - (s : ℚ)

theorem C1_structural_matches_replication_witness :
    sampleBond.notional = 100 ∧
    sampleSched.head? = some sampleBond.settlementDate ∧
    sampleCurve sampleBond.settlementDate ≠ 0 ∧
    |(price_par_par_asset_swap sampleBond 98 sampleCurve sampleSched
        sampleDc).fair_spread -
      (replicate_par_par_asset_swap sampleBond 98 sampleCurve sampleSched
        sampleDc).fair_spread| ≤ 1 / 100000000 :=
  ⟨rfl, rfl, by norm_num [sampleCurve, sampleBond],
    C1_structural_matches_replication sampleBond 98 sampleCurve sampleSched
      sampleDc rfl rfl (by norm_num [sampleCurve, sampleBond])⟩

/-! ## xccy_swap_pricer.py : data model -/

/-- Cashflow-level detail for one leg of an XCCY swap. -/
structure XCCYLegDetail where
  currency : String
  dates : List Date
  amounts : List ℚ
  discount_factors : List ℚ
  present_values : List ℚ
  pv_total : ℚ

/-- Container for cross-currency swap valuation results. -/
structure XCCYSwapResults where
  swap_type : String
  npv_domestic : ℚ
  npv_foreign : ℚ
  fair_value_description : String
  fair_value : ℚ
  domestic_leg_pv : ℚ
  foreign_leg_pv : ℚ
  foreign_leg_pv_in_domestic : ℚ
  domestic_ccy : String
  foreign_ccy : String
  spot_fx : ℚ
  domestic_notional : ℚ
  foreign_notional : ℚ
  domestic_leg_detail : XCCYLegDetail
  foreign_leg_detail : XCCYLegDetail

/-- `_build_fixed_leg_cashflows`: notional exchange at start (pay) and
maturity (receive) around coupons `notional · rate · τ` per schedule period. -/
def build_fixed_leg_cashflows (notional fixed_rate : ℚ)
    (effective maturity : Date) (schedule : List Date)
    (day_count : Date → Date → ℚ) (include_notional_exchange : Bool) :
    List (Date × ℚ) :=
  (if include_notional_exchange then [(effective, -notional)] else []) ++
    (schedulePairs schedule).map
      (fun p => (p.2, notional * fixed_rate * day_count p.1 p.2)) ++
    (if include_notional_exchange then [(maturity, notional)] else [])

/-- `_build_floating_leg_cashflows`: forwards projected from the curve,
payment `notional · (forward + spread) · τ`, notional exchanged at both ends. -/
def build_floating_leg_cashflows (notional spread : ℚ)
    (effective maturity : Date) (schedule : List Date)
    (dc : Date → Date → ℚ) (discount_curve : Date → ℚ)
    (include_notional_exchange : Bool) : List (Date × ℚ) :=
  (if include_notional_exchange then [(effective, -notional)] else []) ++
    (schedulePairs schedule).map (fun p =>
      let tau := dc p.1 p.2
      let fwd := (discount_curve p.1 / discount_curve p.2 - 1) / tau
      (p.2, notional * (fwd + spread) * tau)) ++
    (if include_notional_exchange then [(maturity, notional)] else [])

/-- `_pv_cashflows`: discount a `(date, amount)` list, keeping the breakdown. -/
def pv_cashflows (cfs : List (Date × ℚ)) (discount_curve : Date → ℚ)
    (currency_label : String) : XCCYLegDetail :=
  { currency := currency_label
    dates := cfs.map Prod.fst
    amounts := cfs.map Prod.snd
    discount_factors := cfs.map (fun c => discount_curve c.1)
    present_values := cfs.map (fun c => c.2 * discount_curve c.1)
    pv_total := pvTotal discount_curve cfs }

/-- Explicit arguments of the three XCCY pricers.  The external
collaborators each pricer calls — the domestic calendar's `advance`, the
two legs' `ql.Schedule` generators and day counters — are carried as
function-valued fields. -/
structure XccyArgs where
  domestic_notional : ℚ
  foreign_notional : ℚ
  domestic_fixed_rate : ℚ
  foreign_fixed_rate : ℚ
  domestic_float_spread : ℚ
  foreign_float_spread : ℚ
  tenor_years : ℕ
  domestic_curve : Date → ℚ
  foreign_curve : Date → ℚ
  spot_fx : ℚ
  domestic_ccy : String
  foreign_ccy : String
  advanceDays : Date → ℕ → Date
  advanceYears : Date → ℕ → Date
  domSchedule : Date → Date → List Date
  forSchedule : Date → Date → List Date
  domYf : Date → Date → ℚ
  forYf : Date → Date → ℚ
  eval_date : Date

/-- `effective = domestic_calendar.advance(eval_date, 2 Days)`. -/
def XccyArgs.effective (a : XccyArgs) : Date := a.advanceDays a.eval_date 2

/-- `maturity = domestic_calendar.advance(effective, tenor_years Years)`. -/
def XccyArgs.maturity (a : XccyArgs) : Date :=
  a.advanceYears a.effective a.tenor_years

/-- Domestic fixed-leg cashflows of the fixed-fixed / fixed-floating pricers. -/
def XccyArgs.domFixedCfs (a : XccyArgs) : List (Date × ℚ) :=
  build_fixed_leg_cashflows a.domestic_notional a.domestic_fixed_rate
    a.effective a.maturity (a.domSchedule a.effective a.maturity) a.domYf true

/-- The same domestic fixed leg re-built with rate 0 for the fair-rate solve. -/
def XccyArgs.domFixedCfsZero (a : XccyArgs) : List (Date × ℚ) :=
  build_fixed_leg_cashflows a.domestic_notional 0
    a.effective a.maturity (a.domSchedule a.effective a.maturity) a.domYf true

/-- Foreign fixed-leg cashflows of the fixed-fixed pricer. -/
def XccyArgs.forFixedCfs (a : XccyArgs) : List (Date × ℚ) :=
  build_fixed_leg_cashflows a.foreign_notional a.foreign_fixed_rate
    a.effective a.maturity (a.forSchedule a.effective a.maturity) a.forYf true

/-- Foreign floating-leg cashflows (fixed-floating and float-float pricers). -/
def XccyArgs.forFloatCfs (a : XccyArgs) : List (Date × ℚ) :=
  build_floating_leg_cashflows a.foreign_notional a.foreign_float_spread
    a.effective a.maturity (a.forSchedule a.effective a.maturity) a.forYf
    a.foreign_curve true

/-- Domestic floating-leg cashflows of the float-float pricer. -/
def XccyArgs.domFloatCfs (a : XccyArgs) : List (Date × ℚ) :=
  build_floating_leg_cashflows a.domestic_notional a.domestic_float_spread
    a.effective a.maturity (a.domSchedule a.effective a.maturity) a.domYf
    a.domestic_curve true

/-- The domestic floating leg re-built with spread 0 for the basis solve. -/
def XccyArgs.domFloatCfsFlat (a : XccyArgs) : List (Date × ℚ) :=
  build_floating_leg_cashflows a.domestic_notional 0
    a.effective a.maturity (a.domSchedule a.effective a.maturity) a.domYf
    a.domestic_curve true

/-- Fixed-leg annuity of the fixed-fixed / fixed-floating pricers:
`(PV(actual rate) − PV(rate 0)) / domestic_fixed_rate`, the unguarded
finite-difference division. -/
def XccyArgs.ffAnnuity (a : XccyArgs) : ℚ :=
  (pvTotal a.domestic_curve a.domFixedCfs -
      pvTotal a.domestic_curve a.domFixedCfsZero) / a.domestic_fixed_rate

/-- Direct-summation annuity of the float-float pricer's zero-spread branch:
`Σ notional · τᵢ · DF(endᵢ)` over the domestic floating schedule. -/
def XccyArgs.basisDirectAnnuity (a : XccyArgs) : ℚ :=
  ((schedulePairs (a.domSchedule a.effective a.maturity)).map
    (fun p => a.domestic_notional * a.domYf p.1 p.2 * a.domestic_curve p.2)).sum

/-- Float-float annuity: finite difference over the spread when
`|spread| > 1e-12`, else the direct summation. -/
def XccyArgs.basisAnnuity (a : XccyArgs) : ℚ :=
  if 1 / 10 ^ 12 < |a.domestic_float_spread| then
    (pvTotal a.domestic_curve a.domFloatCfs -
        pvTotal a.domestic_curve a.domFloatCfsFlat) / a.domestic_float_spread
  else a.basisDirectAnnuity

/-- `price_fixed_fixed_xccy_swap`.  `none` models the Python
`ZeroDivisionError` raised when `npv_dom / spot_fx` divides by a zero FX
rate or the annuity finite difference divides by a zero fixed rate. -/
def price_fixed_fixed_xccy_swap (a : XccyArgs) : Option XCCYSwapResults :=
  let dom_detail := pv_cashflows a.domFixedCfs a.domestic_curve a.domestic_ccy
  let for_detail := pv_cashflows a.forFixedCfs a.foreign_curve a.foreign_ccy
  let for_pv_in_dom := for_detail.pv_total * a.spot_fx
  if a.spot_fx = 0 then none
  else if a.domestic_fixed_rate = 0 then none
  else
    let npv_dom := for_pv_in_dom - dom_detail.pv_total
    let npv_for := npv_dom / a.spot_fx
    let dom_detail_zero :=
      pv_cashflows a.domFixedCfsZero a.domestic_curve a.domestic_ccy
    let annuity := a.ffAnnuity
    let fair_dom_rate :=
      if 1 / 10 ^ 10 < |annuity| then
        (for_pv_in_dom - dom_detail_zero.pv_total) / annuity
      else 0
    some
      { swap_type := "Fixed-Fixed"
        npv_domestic := npv_dom
        npv_foreign := npv_for
        fair_value_description := "Fair " ++ a.domestic_ccy ++ " fixed rate"
        fair_value := fair_dom_rate
        domestic_leg_pv := dom_detail.pv_total
        foreign_leg_pv := for_detail.pv_total
        foreign_leg_pv_in_domestic := for_pv_in_dom
        domestic_ccy := a.domestic_ccy
        foreign_ccy := a.foreign_ccy
        spot_fx := a.spot_fx
        domestic_notional := a.domestic_notional
        foreign_notional := a.foreign_notional
        domestic_leg_detail := dom_detail
        foreign_leg_detail := for_detail }

/-- `price_fixed_floating_xccy_swap`: domestic fixed leg against foreign
floating + spread; same unguarded fair-rate divisions as fixed-fixed. -/
def price_fixed_floating_xccy_swap (a : XccyArgs) : Option XCCYSwapResults :=
  let dom_detail := pv_cashflows a.domFixedCfs a.domestic_curve a.domestic_ccy
  let for_detail := pv_cashflows a.forFloatCfs a.foreign_curve a.foreign_ccy
  let for_pv_in_dom := for_detail.pv_total * a.spot_fx
  if a.spot_fx = 0 then none
  else if a.domestic_fixed_rate = 0 then none
  else
    let npv_dom := for_pv_in_dom - dom_detail.pv_total
    let npv_for := npv_dom / a.spot_fx
    let dom_detail_zero :=
      pv_cashflows a.domFixedCfsZero a.domestic_curve a.domestic_ccy
    let annuity := a.ffAnnuity
    let fair_dom_rate :=
      if 1 / 10 ^ 10 < |annuity| then
        (for_pv_in_dom - dom_detail_zero.pv_total) / annuity
      else 0
    some
      { swap_type := "Fixed-Floating"
        npv_domestic := npv_dom
        npv_foreign := npv_for
        fair_value_description := "Fair " ++ a.domestic_ccy ++ " fixed rate"
        fair_value := fair_dom_rate
        domestic_leg_pv := dom_detail.pv_total
        foreign_leg_pv := for_detail.pv_total
        foreign_leg_pv_in_domestic := for_pv_in_dom
        domestic_ccy := a.domestic_ccy
        foreign_ccy := a.foreign_ccy
        spot_fx := a.spot_fx
        domestic_notional := a.domestic_notional
        foreign_notional := a.foreign_notional
        domestic_leg_detail := dom_detail
        foreign_leg_detail := for_detail }

/-- `price_float_float_xccy_swap` (basis swap): both legs floating; the
spread finite difference is guarded (`|spread| > 1e-12`, else direct
summation), and the fair-basis division is guarded on the annuity. -/
def price_float_float_xccy_swap (a : XccyArgs) : Option XCCYSwapResults :=
  let dom_detail := pv_cashflows a.domFloatCfs a.domestic_curve a.domestic_ccy
  let for_detail := pv_cashflows a.forFloatCfs a.foreign_curve a.foreign_ccy
  let for_pv_in_dom := for_detail.pv_total * a.spot_fx
  if a.spot_fx = 0 then none
  else
    let npv_dom := for_pv_in_dom - dom_detail.pv_total
    let npv_for := npv_dom / a.spot_fx
    let dom_detail_flat :=
      pv_cashflows a.domFloatCfsFlat a.domestic_curve a.domestic_ccy
    let annuity_approx := a.basisAnnuity
    let fair_basis :=
      if 1 / 10 ^ 10 < |annuity_approx| then
        (for_pv_in_dom - dom_detail_flat.pv_total) / annuity_approx
      else 0
    some
      { swap_type := "Floating-Floating (Basis)"
        npv_domestic := npv_dom
        npv_foreign := npv_for
        fair_value_description := "Fair " ++ a.domestic_ccy ++ " basis spread"
        fair_value := fair_basis
        domestic_leg_pv := dom_detail.pv_total
        foreign_leg_pv := for_detail.pv_total
        foreign_leg_pv_in_domestic := for_pv_in_dom
        domestic_ccy := a.domestic_ccy
        foreign_ccy := a.foreign_ccy
        spot_fx := a.spot_fx
        domestic_notional := a.domestic_notional
        foreign_notional := a.foreign_notional
        domestic_leg_detail := dom_detail
        foreign_leg_detail := for_detail }

/-! ## xccy theorems -/

/-- C7: in all three cross-currency variants, the returned domestic NPV is
the foreign leg's own-curve PV converted at spot FX minus the domestic
leg's own-curve PV. -/
theorem C7_npv_domestic_formula :
    (∀ a : XccyArgs, (price_fixed_fixed_xccy_swap a).isSome = true →
      (price_fixed_fixed_xccy_swap a).map XCCYSwapResults.npv_domestic =
        some (pvTotal a.foreign_curve a.forFixedCfs * a.spot_fx -
          pvTotal a.domestic_curve a.domFixedCfs)) ∧
    (∀ a : XccyArgs, (price_fixed_floating_xccy_swap a).isSome = true →
      (price_fixed_floating_xccy_swap a).map XCCYSwapResults.npv_domestic =
        some (pvTotal a.foreign_curve a.forFloatCfs * a.spot_fx -
          pvTotal a.domestic_curve a.domFixedCfs)) ∧
    (∀ a : XccyArgs, (price_float_float_xccy_swap a).isSome = true →
      (price_float_float_xccy_swap a).map XCCYSwapResults.npv_domestic =
        some (pvTotal a.foreign_curve a.forFloatCfs * a.spot_fx -
          pvTotal a.domestic_curve a.domFloatCfs)) := by
  refine ⟨fun a h => ?_, fun a h => ?_, fun a h => ?_⟩ <;>
  · simp only [price_fixed_fixed_xccy_swap, price_fixed_floating_xccy_swap,
      price_float_float_xccy_swap] at h ⊢
    split_ifs at h ⊢ <;> simp_all [pv_cashflows]

/-- Concrete XCCY arguments for witnesses: 1-year swap, flat curves,
simple external collaborators (additive calendar, two-date schedules,
day counter giving a zero fraction on empty periods). -/
def xccyEx : XccyArgs :=
  { domestic_notional := 100
    foreign_notional := 110
    domestic_fixed_rate := 3 / 100
    foreign_fixed_rate := 1 / 25
    domestic_float_spread := 1 / 100
    foreign_float_spread := 0
    tenor_years := 1
    domestic_curve := fun d => if d = 0 then 1 else 9 / 10
    foreign_curve := fun d => if d = 0 then 1 else 4 / 5
    spot_fx := 11 / 10
    domestic_ccy := "EUR"
    foreign_ccy := "USD"
    advanceDays := fun d n => d + n
    advanceYears := fun d n => d + 360 * n
    domSchedule := fun s e => [s, e]
    forSchedule := fun s e => [s, e]
    domYf := fun s e => if s = e then 0 else 1
    forYf := fun s e => if s = e then 0 else 1 / 2
    eval_date := 0 }

/-- `xccyEx` with a zero domestic notional: a realizable input (the
schedules are ordinary 1-year schedules, all rates nonzero) on which every
domestic cashflow is 0, so the finite-difference annuity is exactly 0. -/
def xccyZeroNotional : XccyArgs := { xccyEx with domestic_notional := 0 }

/-- C3 fails on the code: at `xccyZeroNotional` the fixed-fixed annuity is
0 (below the 1e-10 guard), yet the pricer returns a result — no error is
signaled — whose fair value has been silently defaulted to 0. -/
theorem C3_counterexample_silent_default :
    |xccyZeroNotional.ffAnnuity| ≤ 1 / 10 ^ 10 ∧
    (price_fixed_fixed_xccy_swap xccyZeroNotional).map XCCYSwapResults.fair_value =
      some 0 := by
  constructor
  · norm_num [xccyZeroNotional, xccyEx, XccyArgs.ffAnnuity, XccyArgs.domFixedCfs,
      XccyArgs.domFixedCfsZero, XccyArgs.effective, XccyArgs.maturity,
      build_fixed_leg_cashflows, schedulePairs, pvTotal]
  · norm_num [xccyZeroNotional, xccyEx, price_fixed_fixed_xccy_swap,
      XccyArgs.ffAnnuity, XccyArgs.domFixedCfs, XccyArgs.domFixedCfsZero,
      XccyArgs.forFixedCfs, XccyArgs.effective, XccyArgs.maturity,
      build_fixed_leg_cashflows, schedulePairs, pvTotal, pv_cashflows]

/-- C3 amended: in all three variants a near-zero annuity
(|annuity| ≤ 1e-10) is guarded against division — by silently defaulting
the returned fair value to 0 — and the pricer still returns a result; no
error is signaled. -/
theorem C3_amended_near_zero_annuity_defaults :
    (∀ a : XccyArgs, (price_fixed_fixed_xccy_swap a).isSome = true →
      |a.ffAnnuity| ≤ 1 / 10 ^ 10 →
      (price_fixed_fixed_xccy_swap a).map XCCYSwapResults.fair_value =
        some 0) ∧
    (∀ a : XccyArgs, (price_fixed_floating_xccy_swap a).isSome = true →
      |a.ffAnnuity| ≤ 1 / 10 ^ 10 →
      (price_fixed_floating_xccy_swap a).map XCCYSwapResults.fair_value =
        some 0) ∧
    (∀ a : XccyArgs, (price_float_float_xccy_swap a).isSome = true →
      |a.basisAnnuity| ≤ 1 / 10 ^ 10 →
      (price_float_float_xccy_swap a).map XCCYSwapResults.fair_value =
        some 0) := by
  refine ⟨fun a h hann => ?_, fun a h hann => ?_, fun a h hann => ?_⟩
  · simp only [price_fixed_fixed_xccy_swap] at h ⊢
    split_ifs at h ⊢ with h1 h2 h3
    · simp at h
    · simp at h
    · exact absurd h3 (not_lt.mpr hann)
    · rfl
  · simp only [price_fixed_floating_xccy_swap] at h ⊢
    split_ifs at h ⊢ with h1 h2 h3
    · simp at h
    · simp at h
    · exact absurd h3 (not_lt.mpr hann)
    · rfl
  · simp only [price_float_float_xccy_swap] at h ⊢
    split_ifs at h ⊢ with h1 h2
    · simp at h
    · exact absurd h2 (not_lt.mpr hann)
    · rfl

theorem C3_amended_near_zero_annuity_defaults_witness :
    ((price_fixed_fixed_xccy_swap xccyZeroNotional).isSome = true ∧
      |xccyZeroNotional.ffAnnuity| ≤ 1 / 10 ^ 10 ∧
      (price_fixed_fixed_xccy_swap xccyZeroNotional).map XCCYSwapResults.fair_value =
        some 0) ∧
    ((price_fixed_floating_xccy_swap xccyZeroNotional).isSome = true ∧
      (price_fixed_floating_xccy_swap xccyZeroNotional).map
        XCCYSwapResults.fair_value = some 0) ∧
    ((price_float_float_xccy_swap xccyZeroNotional).isSome = true ∧
      |xccyZeroNotional.basisAnnuity| ≤ 1 / 10 ^ 10 ∧
      (price_float_float_xccy_swap xccyZeroNotional).map XCCYSwapResults.fair_value =
        some 0) := by
  have hann : |xccyZeroNotional.ffAnnuity| ≤ 1 / 10 ^ 10 := by
    norm_num [xccyZeroNotional, xccyEx, XccyArgs.ffAnnuity, XccyArgs.domFixedCfs,
      XccyArgs.domFixedCfsZero, XccyArgs.effective, XccyArgs.maturity,
      build_fixed_leg_cashflows, schedulePairs, pvTotal]
  have hbann : |xccyZeroNotional.basisAnnuity| ≤ 1 / 10 ^ 10 := by
    norm_num [xccyZeroNotional, xccyEx, XccyArgs.basisAnnuity, XccyArgs.domFloatCfs,
      XccyArgs.domFloatCfsFlat, XccyArgs.basisDirectAnnuity,
      XccyArgs.effective, XccyArgs.maturity,
      build_floating_leg_cashflows, schedulePairs, pvTotal]
  have h1 : (price_fixed_fixed_xccy_swap xccyZeroNotional).isSome = true := by
    norm_num [xccyZeroNotional, xccyEx, price_fixed_fixed_xccy_swap]
  have h2 : (price_fixed_floating_xccy_swap xccyZeroNotional).isSome = true := by
    norm_num [xccyZeroNotional, xccyEx, price_fixed_floating_xccy_swap]
  have h3 : (price_float_float_xccy_swap xccyZeroNotional).isSome = true := by
    norm_num [xccyZeroNotional, xccyEx, price_float_float_xccy_swap]
  exact ⟨⟨h1, hann, C3_amended_near_zero_annuity_defaults.1 xccyZeroNotional h1 hann⟩,
    ⟨h2, C3_amended_near_zero_annuity_defaults.2.1 xccyZeroNotional h2 hann⟩,
    ⟨h3, hbann,
      C3_amended_near_zero_annuity_defaults.2.2 xccyZeroNotional h3 hbann⟩⟩

theorem C7_npv_domestic_formula_witness :
    ((price_fixed_fixed_xccy_swap xccyEx).isSome = true ∧
      (price_fixed_fixed_xccy_swap xccyEx).map XCCYSwapResults.npv_domestic =
        some (pvTotal xccyEx.foreign_curve xccyEx.forFixedCfs * xccyEx.spot_fx -
          pvTotal xccyEx.domestic_curve xccyEx.domFixedCfs)) ∧
    ((price_fixed_floating_xccy_swap xccyEx).isSome = true ∧
      (price_fixed_floating_xccy_swap xccyEx).map
          XCCYSwapResults.npv_domestic =
        some (pvTotal xccyEx.foreign_curve xccyEx.forFloatCfs * xccyEx.spot_fx -
          pvTotal xccyEx.domestic_curve xccyEx.domFixedCfs)) ∧
    ((price_float_float_xccy_swap xccyEx).isSome = true ∧
      (price_float_float_xccy_swap xccyEx).map XCCYSwapResults.npv_domestic =
        some (pvTotal xccyEx.foreign_curve xccyEx.forFloatCfs * xccyEx.spot_fx -
          pvTotal xccyEx.domestic_curve xccyEx.domFloatCfs)) := by
  have h1 : (price_fixed_fixed_xccy_swap xccyEx).isSome = true := by
    norm_num [xccyEx, price_fixed_fixed_xccy_swap]
  have h2 : (price_fixed_floating_xccy_swap xccyEx).isSome = true := by
    norm_num [xccyEx, price_fixed_floating_xccy_swap]
  have h3 : (price_float_float_xccy_swap xccyEx).isSome = true := by
    norm_num [xccyEx, price_float_float_xccy_swap]
  exact ⟨⟨h1, C7_npv_domestic_formula.1 xccyEx h1⟩,
    ⟨h2, C7_npv_domestic_formula.2.1 xccyEx h2⟩,
    ⟨h3, C7_npv_domestic_formula.2.2 xccyEx h3⟩⟩

/-- C10: in the fixed-fixed and fixed-floating pricers the annuity
finite difference divides by the input domestic fixed rate with no guard,
so a zero rate makes the call fail (the modelled `ZeroDivisionError`)
instead of returning a result, while the float-float variant guards the
analogous division on the spread and does return a result at spread 0. -/
theorem C10_unguarded_fixed_rate_division :
    (∀ a : XccyArgs, a.domestic_fixed_rate = 0 →
      price_fixed_fixed_xccy_swap a = none) ∧
    (∀ a : XccyArgs, a.domestic_fixed_rate = 0 →
      price_fixed_floating_xccy_swap a = none) ∧
    (∀ a : XccyArgs, a.spot_fx ≠ 0 → a.domestic_float_spread = 0 →
      (price_float_float_xccy_swap a).isSome = true) := by
  refine ⟨fun a hrate => ?_, fun a hrate => ?_, fun a hfx _ => ?_⟩
  · simp only [price_fixed_fixed_xccy_swap]
    split_ifs <;> rfl
  · simp only [price_fixed_floating_xccy_swap]
    split_ifs <;> rfl
  · simp only [price_float_float_xccy_swap]
    rw [if_neg hfx]
    rfl

/-- `xccyEx` with the domestic fixed rate set to 0. -/
def xccyZeroRate : XccyArgs := { xccyEx with domestic_fixed_rate := 0 }

/-- `xccyEx` with the domestic floating spread set to 0. -/
def xccyZeroSpread : XccyArgs := { xccyEx with domestic_float_spread := 0 }

theorem C10_unguarded_fixed_rate_division_witness :
    (xccyZeroRate.domestic_fixed_rate = 0 ∧
      price_fixed_fixed_xccy_swap xccyZeroRate = none ∧
      price_fixed_floating_xccy_swap xccyZeroRate = none) ∧
    (xccyZeroSpread.spot_fx ≠ 0 ∧ xccyZeroSpread.domestic_float_spread = 0 ∧
      (price_float_float_xccy_swap xccyZeroSpread).isSome = true) := by
  have hrate : xccyZeroRate.domestic_fixed_rate = 0 := rfl
  have hfx : xccyZeroSpread.spot_fx ≠ 0 := by norm_num [xccyZeroSpread, xccyEx]
  exact ⟨⟨hrate, C10_unguarded_fixed_rate_division.1 xccyZeroRate hrate,
      C10_unguarded_fixed_rate_division.2.1 xccyZeroRate hrate⟩,
    ⟨hfx, rfl,
      C10_unguarded_fixed_rate_division.2.2 xccyZeroSpread hfx rfl⟩⟩

/-! ## curves.py : build_discount_curve -/

/-- A market-quote rate helper as the bootstrap consumes it:
(quoted rate, pillar tenor in days). -/
abbrev RateHelper := ℚ × ℕ

/-- The inputs `build_discount_curve` hands to QuantLib's
`PiecewiseLogCubicDiscount` once the guard has passed. -/
structure BootstrappedCurve where
  reference_date : Date
  helpers : List RateHelper
deriving DecidableEq

/-- `build_discount_curve` from `curves.py`: merge the optional deposit and
swap helper lists (`if deposit_helpers: helpers.extend(...)`, which skips
both `None` and an empty list), raise
`ValueError("At least one rate helper is required...")` when the merged
list is empty, otherwise construct the curve. -/
def build_discount_curve (evaluation_date : Date)
    (deposit_helpers swap_helpers : Option (List RateHelper)) :
    Except String BootstrappedCurve :=
  let helpers :=
    (match deposit_helpers with | some l => l | none => []) ++
      (match swap_helpers with | some l => l | none => [])
  if helpers.isEmpty then
    Except.error "At least one rate helper is required to build a curve."
  else Except.ok ⟨evaluation_date, helpers⟩

/-- `true` iff the bootstrap signalled the empty-quote-set error. -/
def isConfigError : Except String BootstrappedCurve → Bool
  | Except.error _ => true
  | Except.ok _ => false

/-- C4: building a discount curve signals the empty-quote-set
configuration error exactly when the combined deposit + swap helper list
is empty; with at least one helper no such error is raised. -/
theorem C4_empty_helpers_iff_error (evaluation_date : Date)
    (deposit_helpers swap_helpers : Option (List RateHelper)) :
    isConfigError (build_discount_curve evaluation_date deposit_helpers
        swap_helpers) =
      (deposit_helpers.getD [] ++ swap_helpers.getD []).isEmpty := by
  cases deposit_helpers <;> cases swap_helpers <;>
  · simp only [build_discount_curve, Option.getD_some, Option.getD_none]
    split_ifs with h <;> simp_all [isConfigError]

/-! ## C8 : what the asset-swap result containers report -/

/-- Every numeric value the replicated result container carries, record
fields first, then the two per-row breakdowns. -/
def reportedScalars (r : ReplicatedAssetSwapResults) : List ℚ :=
  [r.asset_swap_spread, r.fair_spread, r.bond_pv_at_swap_curve,
    r.market_dirty_price, r.floating_annuity] ++
  r.bond_cashflows.map CashflowDetail.amount ++
  r.bond_cashflows.map CashflowDetail.discount_factor ++
  r.bond_cashflows.map CashflowDetail.present_value ++
  r.floating_periods.map FloatingPeriodDetail.year_fraction ++
  r.floating_periods.map FloatingPeriodDetail.discount_factor ++
  r.floating_periods.map FloatingPeriodDetail.contribution

/-- Every numeric value the structural result container carries. -/
def reportedScalarsStructural (r : AssetSwapResults) : List ℚ :=
  [r.asset_swap_spread, r.fair_spread, r.bond_clean_price,
    r.bond_dirty_price, r.npv, r.fixed_leg_npv, r.floating_leg_npv]

/-- C8 fails on the code: neither result container reports the upfront
par − dirty.  For the sample bond at dirty price 98 the upfront is 2, and
2 appears nowhere among the values either pricing call reports. -/
theorem C8_counterexample_no_upfront_reported :
    (100 : ℚ) - 98 ∉ reportedScalars
      (replicate_par_par_asset_swap sampleBond 98 sampleCurve sampleSched
        sampleDc) ∧
    (100 : ℚ) - 98 ∉ reportedScalarsStructural
      (price_par_par_asset_swap sampleBond 98 sampleCurve sampleSched
        sampleDc) := by
  constructor
  · norm_num [reportedScalars, replicate_par_par_asset_swap, sampleBond,
      sampleCurve, sampleSched, sampleDc, bondPvEval, bondCfRows, floatRows,
      floatingAnnuity]
  · norm_num [reportedScalarsStructural, price_par_par_asset_swap,
      structuralFairSpread, structuralNPV, flatFrnPV, lastOf, sampleBond,
      sampleCurve, sampleSched, sampleDc, bondPvEval, floatingAnnuity,
      schedulePairs]

/-- C8 amended: the upfront is not a reported field; both containers echo
the dirty price, from which the caller recovers the upfront as
par (100) − dirty price (positive ⇒ investor receives). -/
theorem C8_amended_upfront_recoverable (bond : FixedRateBond) (dirty : ℚ)
    (curve : Date → ℚ) (sched : List Date) (dc : Date → Date → ℚ) :
    (100 : ℚ) -
        (replicate_par_par_asset_swap bond dirty curve sched
          dc).market_dirty_price = 100 - dirty ∧
    (100 : ℚ) -
        (price_par_par_asset_swap bond dirty curve sched
          dc).bond_dirty_price = 100 - dirty :=
  ⟨rfl, rfl⟩

/-! ## asset_swap.py : compute_z_spread -/

/-- Modelled from the spec: the bounded 1-D root-finder inside
`ql.BondFunctions.zSpread` (not in src) — bisection on `f` over `[lo, hi]`
with an iteration budget and a residual tolerance, returning the midpoint
once `|f(mid)| ≤ tol` and failing with a `ConvergenceError` when the
budget runs out. -/
def solve1D (f : ℚ → ℚ) (tol : ℚ) : ℕ → ℚ → ℚ → Except String ℚ
  | 0, _, _ => Except.error "ConvergenceError"
  | n + 1, lo, hi =>
      let mid := (lo + hi) / 2
      if |f mid| ≤ tol then Except.ok mid
      else if f lo * f mid < 0 then solve1D f tol n lo mid
      else solve1D f tol n mid hi

theorem solve1D_ok (f : ℚ → ℚ) (tol : ℚ) :
    ∀ (n : ℕ) (lo hi z : ℚ),
      solve1D f tol n lo hi = Except.ok z → |f z| ≤ tol := by
  intro n
  induction n with
  | zero =>
      intro lo hi z h
      simp [solve1D] at h
  | succ n ih =>
      intro lo hi z h
      simp only [solve1D] at h
      split_ifs at h with h1 h2
      · obtain rfl : (lo + hi) / 2 = z := by
          simpa using h
        exact h1
      · exact ih _ _ _ h
      · exact ih _ _ _ h

/-- Modelled from the spec: discount factor for a cashflow `n` coupon
periods out when the flat spread `z` is added to the zero rate `r`,
compounded at the bond's coupon frequency `freq`:
`(1 + (r + z)/freq) ^ (−n)`. -/
def discountAtSpread (freq r z : ℚ) (n : ℕ) : ℚ :=
  1 / (1 + (r + z) / freq) ^ n

/-- Modelled from the spec: repricing the bond's cashflows
(coupon-period count, amount) with the zero curve's rate per pillar
shifted flat by `z` — the measure the Z-spread is solved against. -/
def repriceAtSpread (freq : ℚ) (zeroRate : ℕ → ℚ) (cfs : List (ℕ × ℚ))
    (z : ℚ) : ℚ :=
  (cfs.map (fun c => c.2 * discountAtSpread freq (zeroRate c.1) z c.1)).sum

/-- `compute_z_spread` from `asset_swap.py`: delegate the solve to the
root-finder on the residual `reprice(z) − clean price`, and return the
solved spread in basis points (`z_spread * 10_000`). -/
def compute_z_spread (freq : ℚ) (zeroRate : ℕ → ℚ) (cfs : List (ℕ × ℚ))
    (bond_clean_price : ℚ) (lo hi tol : ℚ) (iters : ℕ) : Except String ℚ :=
  (solve1D (fun z => repriceAtSpread freq zeroRate cfs z - bond_clean_price)
      tol iters lo hi).map (· * 10000)

/-- C5: whenever `compute_z_spread` succeeds, re-discounting the bond's
cashflows with the solved Z-spread (returned in bps, hence `/ 10000`)
added flat to the zero curve reproduces the market clean price within the
solver tolerance. -/
theorem C5_z_spread_round_trip (freq : ℚ) (zeroRate : ℕ → ℚ)
    (cfs : List (ℕ × ℚ)) (clean lo hi tol : ℚ) (iters : ℕ) (zbps : ℚ)
    (h : compute_z_spread freq zeroRate cfs clean lo hi tol iters =
      Except.ok zbps) :
    |repriceAtSpread freq zeroRate cfs (zbps / 10000) - clean| ≤ tol := by
  unfold compute_z_spread at h
  cases hs : solve1D
      (fun z => repriceAtSpread freq zeroRate cfs z - clean) tol iters lo
      hi with
  | error e => rw [hs] at h; simp [Except.map] at h
  | ok z0 =>
      rw [hs] at h
      simp only [Except.map, Except.ok.injEq] at h
      have hf := solve1D_ok _ _ _ _ _ _ hs
      have hz : zbps / 10000 = z0 := by
        rw [← h]; field_simp
      rw [hz]
      exact hf

theorem C5_z_spread_round_trip_witness :
    compute_z_spread 1 (fun _ => 0) [(1, 110)] 100 0 1 1 5 =
      Except.ok (1875 / 2) ∧
    |repriceAtSpread 1 (fun _ => 0) [(1, 110)] ((1875 / 2) / 10000) - 100| ≤
      1 := by
  have h : compute_z_spread 1 (fun _ => 0) [(1, 110)] 100 0 1 1 5 =
      Except.ok (1875 / 2) := by
    norm_num [compute_z_spread, solve1D, repriceAtSpread, discountAtSpread,
      Except.map, abs_le]
  exact ⟨h,
    C5_z_spread_round_trip 1 (fun _ => 0) [(1, 110)] 100 0 1 1 5
      (1875 / 2) h⟩

/-! ## swap_pricer.py : price_irs -/

/-- Container for interest-rate swap valuation results. -/
structure IRSResults where
  npv : ℚ
  fair_rate : ℚ
  fair_spread : ℚ
  fixed_leg_npv : ℚ
  floating_leg_npv : ℚ
  fixed_leg_bps : ℚ
  floating_leg_bps : ℚ
  notional : ℚ
  fixed_rate : ℚ
  maturity_years : ℕ
  swap_type : String

/-- Modelled from the spec: the fixed-leg PV computed inside QuantLib's
`DiscountingSwapEngine` (not in src), §4.6:
`Σ notional · rate · τᵢ · DF(endᵢ)` over the fixed schedule. -/
def fixedLegPV (curve : Date → ℚ) (dc : Date → Date → ℚ)
    (notional rate : ℚ) (sched : List Date) : ℚ :=
  ((schedulePairs sched).map
    (fun p => notional * rate * dc p.1 p.2 * curve p.2)).sum

/-- Modelled from the spec: the leg annuity `Σ notional · τᵢ · DF(endᵢ)`
(§4.6), the linear coefficient of the fixed-leg PV in the rate. -/
def swapAnnuity (curve : Date → ℚ) (dc : Date → Date → ℚ)
    (notional : ℚ) (sched : List Date) : ℚ :=
  ((schedulePairs sched).map
    (fun p => notional * dc p.1 p.2 * curve p.2)).sum

/-- Modelled from the spec: the floating-leg PV under the single-curve
setup (§4.6): coupons `notional · (forward + spread) · τᵢ` with
`forward = (DF(start)/DF(end) − 1)/τᵢ`, each discounted by `DF(endᵢ)`. -/
def floatingLegPV (curve : Date → ℚ) (dc : Date → Date → ℚ)
    (notional spread : ℚ) (sched : List Date) : ℚ :=
  ((schedulePairs sched).map (fun p =>
    let tau := dc p.1 p.2
    let fwd := (curve p.1 / curve p.2 - 1) / tau
    notional * (fwd + spread) * tau * curve p.2)).sum

/-- `price_irs` from `swap_pricer.py`.  The numbers it extracts from
QuantLib (`swap.NPV()`, `swap.fairRate()`, `swap.fairSpread()`, leg
NPVs and BPS) are modelled from the spec's §4.6 linear decomposition:
`fairRate = floatingLegPV / annuity`, the fair spread analogously on the
floating leg, payer NPV = floating − fixed, leg BPS = annuity · 1e-4. -/
def price_irs (notional fixed_rate : ℚ) (tenor_years : ℕ)
    (curve : Date → ℚ) (payer : Bool) (fixed_dc float_dc : Date → Date → ℚ)
    (float_spread : ℚ) (fixed_sched float_sched : List Date) : IRSResults :=
  let fixedPV := fixedLegPV curve fixed_dc notional fixed_rate fixed_sched
  let floatPV := floatingLegPV curve float_dc notional float_spread float_sched
  let ann := swapAnnuity curve fixed_dc notional fixed_sched
  let fltAnn := swapAnnuity curve float_dc notional float_sched
  { npv := if payer then floatPV - fixedPV else fixedPV - floatPV
    fair_rate := floatPV / ann
    fair_spread :=
      (fixedPV - floatingLegPV curve float_dc notional 0 float_sched) / fltAnn
    fixed_leg_npv := fixedPV
    floating_leg_npv := floatPV
    fixed_leg_bps := ann * (1 / 10000)
    floating_leg_bps := fltAnn * (1 / 10000)
    notional := notional
    fixed_rate := fixed_rate
    maturity_years := tenor_years
    swap_type := if payer then "Payer" else "Receiver" }

theorem fixedLegPV_eq_rate_mul_annuity (curve : Date → ℚ)
    (dc : Date → Date → ℚ) (notional rate : ℚ) (sched : List Date) :
    fixedLegPV curve dc notional rate sched =
      rate * swapAnnuity curve dc notional sched := by
  unfold fixedLegPV swapAnnuity
  generalize schedulePairs sched = l
  induction l with
  | nil => simp
  | cons p ps ih =>
      simp only [List.map_cons, List.sum_cons, ih]
      ring

/-- C6: re-pricing the IRS with its fixed rate replaced by the returned
fair rate yields an NPV within 1e-6 × notional of zero (it is exactly
zero), for a nonzero fixed-leg annuity and nonnegative notional. -/
theorem C6_fair_rate_reprices_to_zero (notional fixed_rate : ℚ)
    (tenor_years : ℕ) (curve : Date → ℚ) (payer : Bool)
    (fixed_dc float_dc : Date → Date → ℚ) (float_spread : ℚ)
    (fixed_sched float_sched : List Date)
    (hann : swapAnnuity curve fixed_dc notional fixed_sched ≠ 0)
    (hnot : 0 ≤ notional) :
    |(price_irs notional
        (price_irs notional fixed_rate tenor_years curve payer fixed_dc
          float_dc float_spread fixed_sched float_sched).fair_rate
        tenor_years curve payer fixed_dc float_dc float_spread fixed_sched
        float_sched).npv| ≤ 1 / 1000000 * notional := by
  simp only [price_irs]
  rw [fixedLegPV_eq_rate_mul_annuity, div_mul_cancel₀ _ hann]
  cases payer <;> simp only [Bool.false_eq_true, if_true, if_false, sub_self,
    abs_zero] <;> positivity

/-- Witness discount curve for the IRS round trip. -/
def irsCurve : Date → ℚ := fun d => if d = 0 then 1 else 9 / 10

/-- Witness day counter for the IRS round trip. -/
def irsDc : Date → Date → ℚ := fun s e => if s = e then 0 else 1

theorem C6_fair_rate_reprices_to_zero_witness :
    swapAnnuity irsCurve irsDc 100 [2, 362] ≠ 0 ∧ (0 : ℚ) ≤ 100 ∧
    |(price_irs 100
        (price_irs 100 (3 / 100) 1 irsCurve true irsDc irsDc 0 [2, 362]
          [2, 182, 362]).fair_rate
        1 irsCurve true irsDc irsDc 0 [2, 362] [2, 182, 362]).npv| ≤
      1 / 1000000 * 100 := by
  have hann : swapAnnuity irsCurve irsDc 100 [2, 362] ≠ 0 := by
    norm_num [swapAnnuity, schedulePairs, irsCurve, irsDc]
  exact ⟨hann, by norm_num,
    C6_fair_rate_reprices_to_zero 100 (3 / 100) 1 irsCurve true irsDc irsDc
      0 [2, 362] [2, 182, 362] hann (by norm_num)⟩

/-! ## swap_pricer.py : build_vanilla_swap and the ambient evaluation date -/

/-- The constructed `ql.VanillaSwap`: payer flag, notional, the two
generated schedules, fixed rate and floating spread. -/
structure VanillaSwap where
  payer : Bool
  notional : ℚ
  fixed_schedule : List Date
  fixed_rate : ℚ
  float_schedule : List Date
  float_spread : ℚ
deriving DecidableEq

/-- External collaborators of `build_vanilla_swap`: the calendar's
`advance` and the `ql.Schedule` generators for the two legs. -/
structure SwapMarket where
  advanceDays : Date → ℕ → Date
  advanceYears : Date → ℕ → Date
  fixedSched : Date → Date → List Date
  floatSched : Date → Date → List Date

/-- `build_vanilla_swap` from `swap_pricer.py`, with the ambient
process-wide state `ql.Settings.instance().evaluationDate` made explicit:
the argument `g` is the ambient date before the call and the second
component of the result is the ambient date after it.  When
`evaluation_date` is `None` the ambient date is read
(`eval_date = ql.Settings.instance().evaluationDate`); when provided, it
overwrites the ambient date first. -/
def build_vanilla_swap (mkt : SwapMarket) (notional fixed_rate : ℚ)
    (tenor_years : ℕ) (payer : Bool) (float_spread : ℚ)
    (evaluation_date : Option Date) (g : Date) : VanillaSwap × Date :=
  let g1 := match evaluation_date with | some d => d | none => g
  let eval_date := g1
  let effective_date := mkt.advanceDays eval_date 2
  let maturity_date := mkt.advanceYears effective_date tenor_years
  ({ payer := payer
     notional := notional
     fixed_schedule := mkt.fixedSched effective_date maturity_date
     fixed_rate := fixed_rate
     float_schedule := mkt.floatSched effective_date maturity_date
     float_spread := float_spread }, g1)

/-- The ambient-free valuation: the swap `build_vanilla_swap` constructs
for a given effective evaluation date. -/
def build_vanilla_swap_pure (mkt : SwapMarket) (notional fixed_rate : ℚ)
    (tenor_years : ℕ) (payer : Bool) (float_spread : ℚ)
    (eval_date : Date) : VanillaSwap :=
  let effective_date := mkt.advanceDays eval_date 2
  let maturity_date := mkt.advanceYears effective_date tenor_years
  { payer := payer
    notional := notional
    fixed_schedule := mkt.fixedSched effective_date maturity_date
    fixed_rate := fixed_rate
    float_schedule := mkt.floatSched effective_date maturity_date
    float_spread := float_spread }

/-- Concrete market collaborators for the C9 counterexample. -/
def sampleMkt : SwapMarket :=
  { advanceDays := fun d n => d + n
    advanceYears := fun d n => d + 360 * n
    fixedSched := fun s e => [s, e]
    floatSched := fun s e => [s, (s + e) / 2, e] }

/-- C9 fails on the code: with no explicit evaluation date, two calls with
identical explicit arguments return different swaps under different
ambient evaluation dates (the result depends on
`ql.Settings.instance().evaluationDate`), and passing an explicit date
mutates that ambient process-wide state. -/
theorem C9_counterexample_ambient_state :
    (build_vanilla_swap sampleMkt 100 (3 / 100) 1 true 0 none 0).1 ≠
      (build_vanilla_swap sampleMkt 100 (3 / 100) 1 true 0 none 10).1 ∧
    (build_vanilla_swap sampleMkt 100 (3 / 100) 1 true 0 (some 5) 0).2 ≠ 0 := by
  constructor
  · simp [build_vanilla_swap, sampleMkt]
  · simp [build_vanilla_swap]

/-- Container for bond valuation results. -/
structure BondResults where
  clean_price : ℚ
  dirty_price : ℚ
  accrued_interest : ℚ
  ytm : ℚ
  modified_duration : ℚ
  macaulay_duration : ℚ
  convexity : ℚ
  bpv : ℚ

/-- `price_bond` from `bond_pricer.py`, ambient state explicit: the
`if evaluation_date is not None: ql.Settings.instance().evaluationDate = …`
prologue, followed by the analytics QuantLib's `DiscountingBondEngine` /
`BondFunctions` compute (not in src), abstracted as `analytics`, a
function of the ambient evaluation date those queries read. -/
def price_bond (analytics : Date → BondResults)
    (evaluation_date : Option Date) (g : Date) : BondResults × Date :=
  let g1 := match evaluation_date with | some d => d | none => g
  (analytics g1, g1)

/-- `replicate_par_par_asset_swap` with its ambient-state prologue made
explicit: the bond object's queries and the external schedule generator
read the ambient evaluation date inside QuantLib
(`bond.settlementDate()`, `ql.Schedule`), so they are passed as functions
of that date; the body is the embedded computation at the effective date. -/
def replicate_par_par_asset_swap_ambient (bond : Date → FixedRateBond)
    (bond_dirty_price : ℚ) (discount_curve : Date → ℚ)
    (float_schedule : Date → List Date) (float_dc : Date → Date → ℚ)
    (evaluation_date : Option Date) (g : Date) :
    ReplicatedAssetSwapResults × Date :=
  let g1 := match evaluation_date with | some d => d | none => g
  (replicate_par_par_asset_swap (bond g1) bond_dirty_price discount_curve
    (float_schedule g1) float_dc, g1)

/-- `price_par_par_asset_swap` with its ambient-state prologue made
explicit, exactly as for the replication. -/
def price_par_par_asset_swap_ambient (bond : Date → FixedRateBond)
    (bond_dirty_price : ℚ) (discount_curve : Date → ℚ)
    (sched : Date → List Date) (dc : Date → Date → ℚ)
    (evaluation_date : Option Date) (g : Date) : AssetSwapResults × Date :=
  let g1 := match evaluation_date with | some d => d | none => g
  (price_par_par_asset_swap (bond g1) bond_dirty_price discount_curve
    (sched g1) dc, g1)

/-- `price_fixed_fixed_xccy_swap` with its ambient-state prologue made
explicit (`eval_date = ql.Settings.instance().evaluationDate` after the
optional overwrite); the body is the embedded pricer at that date. -/
def price_fixed_fixed_xccy_swap_ambient (a : XccyArgs)
    (evaluation_date : Option Date) (g : Date) :
    Option XCCYSwapResults × Date :=
  let g1 := match evaluation_date with | some d => d | none => g
  (price_fixed_fixed_xccy_swap { a with eval_date := g1 }, g1)

/-- `price_fixed_floating_xccy_swap` with its ambient-state prologue made
explicit. -/
def price_fixed_floating_xccy_swap_ambient (a : XccyArgs)
    (evaluation_date : Option Date) (g : Date) :
    Option XCCYSwapResults × Date :=
  let g1 := match evaluation_date with | some d => d | none => g
  (price_fixed_floating_xccy_swap { a with eval_date := g1 }, g1)

/-- `price_float_float_xccy_swap` with its ambient-state prologue made
explicit. -/
def price_float_float_xccy_swap_ambient (a : XccyArgs)
    (evaluation_date : Option Date) (g : Date) :
    Option XCCYSwapResults × Date :=
  let g1 := match evaluation_date with | some d => d | none => g
  (price_float_float_xccy_swap { a with eval_date := g1 }, g1)

/-- C9 amended: every valuation is a pure, deterministic function of its
explicit arguments together with the ambient process-wide evaluation
date.  Each entry point — `build_vanilla_swap` (through which `price_irs`
forwards `evaluation_date`), `price_bond`, both asset-swap pricers and
all three XCCY pricers — reads the ambient date only when
`evaluation_date` is omitted, its result is the ambient-free computation
at the effective date `evaluation_date.getD g`, and the ambient state
after the call is exactly that effective date, i.e. mutated whenever an
explicit date is passed. -/
theorem C9_amended_pure_given_ambient_date :
    (∀ (mkt : SwapMarket) (notional fixed_rate : ℚ) (tenor_years : ℕ)
      (payer : Bool) (float_spread : ℚ) (ed : Option Date) (g : Date),
      build_vanilla_swap mkt notional fixed_rate tenor_years payer
          float_spread ed g =
        (build_vanilla_swap_pure mkt notional fixed_rate tenor_years payer
            float_spread (ed.getD g), ed.getD g)) ∧
    (∀ (analytics : Date → BondResults) (ed : Option Date) (g : Date),
      price_bond analytics ed g = (analytics (ed.getD g), ed.getD g)) ∧
    (∀ (bond : Date → FixedRateBond) (dirty : ℚ) (curve : Date → ℚ)
      (sched : Date → List Date) (dc : Date → Date → ℚ) (ed : Option Date)
      (g : Date),
      replicate_par_par_asset_swap_ambient bond dirty curve sched dc ed g =
        (replicate_par_par_asset_swap (bond (ed.getD g)) dirty curve
            (sched (ed.getD g)) dc, ed.getD g)) ∧
    (∀ (bond : Date → FixedRateBond) (dirty : ℚ) (curve : Date → ℚ)
      (sched : Date → List Date) (dc : Date → Date → ℚ) (ed : Option Date)
      (g : Date),
      price_par_par_asset_swap_ambient bond dirty curve sched dc ed g =
        (price_par_par_asset_swap (bond (ed.getD g)) dirty curve
            (sched (ed.getD g)) dc, ed.getD g)) ∧
    (∀ (a : XccyArgs) (ed : Option Date) (g : Date),
      price_fixed_fixed_xccy_swap_ambient a ed g =
        (price_fixed_fixed_xccy_swap { a with eval_date := ed.getD g },
          ed.getD g)) ∧
    (∀ (a : XccyArgs) (ed : Option Date) (g : Date),
      price_fixed_floating_xccy_swap_ambient a ed g =
        (price_fixed_floating_xccy_swap { a with eval_date := ed.getD g },
          ed.getD g)) ∧
    (∀ (a : XccyArgs) (ed : Option Date) (g : Date),
      price_float_float_xccy_swap_ambient a ed g =
        (price_float_float_xccy_swap { a with eval_date := ed.getD g },
          ed.getD g)) := by
  refine ⟨fun mkt n r t p fs ed g => ?_, fun an ed g => ?_,
    fun b d c s dcc ed g => ?_, fun b d c s dcc ed g => ?_,
    fun a ed g => ?_, fun a ed g => ?_, fun a ed g => ?_⟩ <;>
    cases ed <;> rfl

/-- `sampleBond` with face 50, cashflows unchanged: an input at which the
two asset-swap spread derivations diverge. -/
def sampleBond50 : FixedRateBond := { sampleBond with notional := 50 }

/-- C1 fails on the code for faces other than 100: at face 50 and dirty
price 98 the structural and replicated spreads differ by 147/125 ≈ 1.176
decimal, far beyond 1e-8 — the replication divides an absolute-cashflow PV
minus a per-100 dirty price by face × annuity, so the two derivations
agree only under the per-100 convention face = 100. -/
theorem C1_counterexample_face_dependence :
    ¬ |(price_par_par_asset_swap sampleBond50 98 sampleCurve sampleSched
          sampleDc).fair_spread -
        (replicate_par_par_asset_swap sampleBond50 98 sampleCurve sampleSched
          sampleDc).fair_spread| ≤ 1 / 100000000 := by
  norm_num [price_par_par_asset_swap, structuralFairSpread, flatFrnPV,
    lastOf, schedulePairs, bondPvEval, floatingAnnuity,
    replicate_par_par_asset_swap, sampleBond50, sampleBond, sampleCurve,
    sampleSched, sampleDc, lt_abs]
